import Mathlib

/-!
# Verification of the GPU detection and normalization engine

Shallow embedding of `utils/detectGpu.go` from the VideoProcessing
repository.  Pure Go string manipulation is translated to functions on
`String`/`List Char`; external process invocations and file reads are
modelled as an explicit environment (`ProbeEnv`) of probe outcomes, since
their results are inputs to the detector, not part of its logic.  Go's
`regexp` applications are embedded as specialized leftmost-match scanners
that follow RE2 semantics for the fixed patterns appearing in the source.
-/

namespace VideoProcessing

/-! ## Embeddings of the Go standard-library string helpers used by the source -/

/-- Go `unicode.IsSpace` restricted to the code points that can occur in the
Latin-1 range: `'\t'`, `'\n'`, vertical tab, form feed, `'\r'`, `' '`,
U+0085 and U+00A0. -/
def goIsSpace (c : Char) : Bool :=
  c = ' ' || c = '\t' || c = '\n' || c = '\x0b' || c = '\x0c' || c = '\r' ||
  c = '\x85' || c = '\xA0'

/-- The RE2/Go regexp character class `\s`, i.e. `[\t\n\f\r ]`. -/
def isRe2Space (c : Char) : Bool :=
  c = ' ' || c = '\t' || c = '\n' || c = '\x0c' || c = '\r'

/-- Does the list `s` start with the list `pat`? (Go `strings.HasPrefix` on
rune lists.) -/
def listStartsWith : List Char → List Char → Bool
  | [], _ => true
  | _ :: _, [] => false
  | p :: ps, x :: xs => p = x && listStartsWith ps xs

/-- Does `pat` occur as a contiguous sublist of `s`?  Embeds Go
`strings.Contains` at the rune level. -/
def listHasSub (pat : List Char) : List Char → Bool
  | [] => pat.isEmpty
  | x :: xs => listStartsWith pat (x :: xs) || listHasSub pat xs

/-- Go `strings.Contains s sub`. -/
def goContains (s sub : String) : Bool :=
  listHasSub sub.data s.data

/-- Go `strings.HasPrefix s pre`. -/
def goStartsWith (s pre : String) : Bool :=
  listStartsWith pre.data s.data

/-- Go `strings.TrimPrefix s pre`: drops `pre` when it heads `s`. -/
def goTrimHead (s pre : String) : String :=
  if goStartsWith s pre then String.mk (s.data.drop pre.data.length) else s

/-- Go `strings.TrimSpace`. -/
def goTrimSpace (s : String) : String :=
  String.mk (((s.data.dropWhile goIsSpace).reverse.dropWhile goIsSpace).reverse)

/-- Go `strings.ToLower`, at the rune level (ASCII case mapping; the model
and the source agree on all ASCII data, which is all the detector handles). -/
def goToLower (s : String) : String :=
  String.mk (s.data.map Char.toLower)

/-- Split a rune list at every occurrence of the separator character.
Embeds Go `strings.Split s sep` for a one-rune separator: `[]` yields `[[]]`. -/
def splitOnChar (c : Char) : List Char → List (List Char)
  | [] => [[]]
  | x :: xs =>
    if x = c then [] :: splitOnChar c xs
    else
      match splitOnChar c xs with
      | [] => [[x]]
      | l :: ls => (x :: l) :: ls

/-- Go `strings.Split output "\n"`. -/
def goLines (s : String) : List String :=
  (splitOnChar '\n' s.data).map String.mk

/-- Split a rune list at the first occurrence of `c`; `none` when `c` is
absent.  Embeds Go `strings.SplitN s sep 2` (which returns two pieces
exactly when the separator occurs). -/
def splitOnceChar (c : Char) : List Char → Option (List Char × List Char)
  | [] => none
  | x :: xs =>
    if x = c then some ([], xs)
    else (splitOnceChar c xs).map (fun p => (x :: p.1, p.2))

/-- Go `strings.SplitN line ":" 2`, returning the two pieces when a colon
occurs. -/
def goSplitColon2 (s : String) : Option (String × String) :=
  (splitOnceChar ':' s.data).map (fun p => (String.mk p.1, String.mk p.2))

/-- Split on a multi-character separator, with fuel (the separator occurring
in the source is nonempty and every step consumes at least one rune, so fuel
`s.length + 1` always suffices).  Embeds Go `strings.Split` for a multi-rune
separator. -/
def splitOnListAux (sep : List Char) : Nat → List Char → List (List Char)
  | 0, s => [s]
  | _ + 1, [] => [[]]
  | fuel + 1, x :: xs =>
    if listStartsWith sep (x :: xs) then
      [] :: splitOnListAux sep fuel ((x :: xs).drop sep.length)
    else
      match splitOnListAux sep fuel xs with
      | [] => [[x]]
      | l :: ls => (x :: l) :: ls

/-- Go `strings.Split s sep` for a nonempty multi-rune separator. -/
def goSplitOnStr (s sep : String) : List String :=
  (splitOnListAux sep.data (s.data.length + 1) s.data).map String.mk

/-! ## The data model: `GPUInfo` (detectGpu.go lines 15-23)

Every field is a Go `string` whose zero value is `""`; the Lean structure
gives each field that default so that partially-initialized Go literals
translate directly. -/

structure GPUInfo where
  Vendor : String := ""
  Model : String := ""
  Memory : String := ""
  DriverVersion : String := ""
  PCIAddress : String := ""
  RawOutput : String := ""
  Error : String := ""
deriving DecidableEq

/-- The closed vendor tag set named by the specification. -/
def vendorTags : List String := ["nvidia", "amd", "intel", "apple", "unknown"]

/-! ## Vendor classification and text normalization helpers -/

/-- The NVIDIA pattern group of `determineVendorFromOutput` (lines 362-364). -/
def nvidiaPatterns : List String :=
  ["nvidia", "geforce", "quadro", "tesla", "rtx", "gtx", "titan", "nvs"]

/-- The AMD pattern group (lines 372-374). -/
def amdPatterns : List String :=
  ["amd", "radeon", "rx ", "vega", "navi", "rdna", "ati", "firepro", "firegl"]

/-- The Intel pattern group (lines 382-384). -/
def intelPatterns : List String :=
  ["intel", "iris", "uhd graphics", "hd graphics", "xe graphics", "arc"]

/-- The Apple pattern group (lines 392-394). -/
def applePatterns : List String :=
  ["apple", "m1", "m2", "m3", "m4"]

/-- Does the (already lower-cased) string contain any of the patterns?
Each `for`/`strings.Contains` loop of the source is this `any`. -/
def containsAny (lower : String) (patterns : List String) : Bool :=
  patterns.any (fun p => goContains lower p)

/-- `determineVendorFromOutput` (lines 358-402): test the lower-cased model
string against the four pattern groups in order; first matching group wins;
no match yields `"unknown"`. -/
def determineVendorFromOutput (output : String) : String :=
  let lower := goToLower output
  if containsAny lower nvidiaPatterns then "nvidia"
  else if containsAny lower amdPatterns then "amd"
  else if containsAny lower intelPatterns then "intel"
  else if containsAny lower applePatterns then "apple"
  else "unknown"

/-- `normalizeVendorName` (lines 457-471): canonicalize a directly-reported
vendor string; unrecognized vendors fall through to the lower-cased
original. -/
def normalizeVendorName (vendor : String) : String :=
  let lower := goToLower vendor
  if goContains lower "nvidia" then "nvidia"
  else if goContains lower "amd" || goContains lower "ati" then "amd"
  else if goContains lower "intel" then "intel"
  else if goContains lower "apple" then "apple"
  else goToLower vendor

/-- The generic/virtual adapter block-list of `isGenericGPU` (lines 429-431). -/
def genericTerms : List String :=
  ["basic", "generic", "standard", "vnc", "virtual", "vmware", "vbox"]

/-- `isGenericGPU` (lines 428-440): a model is generic when its lower-casing
contains any block-listed term. -/
def isGenericGPU (model : String) : Bool :=
  containsAny (goToLower model) genericTerms

/-! ## Memory formatting (`formatMemory`, lines 442-455) -/

/-- The leftmost match of the regexp `\d+`: the first maximal run of ASCII
digits, or `[]` when there is none (Go `FindString` returns `""` then). -/
def firstDigitRun : List Char → List Char
  | [] => []
  | c :: cs => if c.isDigit then c :: cs.takeWhile Char.isDigit else firstDigitRun cs

/-- Digit-list to numeric value. -/
def digitsToNat (ds : List Char) : Nat :=
  ds.foldl (fun acc c => 10 * acc + (c.toNat - '0'.toNat)) 0

/-- Go `strconv.ParseInt s 10 64` on a nonempty all-digit string: the value,
or `none` on int64 overflow. -/
def goParseInt64 (s : String) : Option Nat :=
  let v := digitsToNat s.data
  if v ≤ 9223372036854775807 then some v else none

/-- Model of Go `fmt.Sprintf "%.1f"` applied to `float64(n)/float64(d)`:
round `10*n/d` half to even and print with one decimal digit.  This is
exactly the printed value whenever `float64(n)` is exact (all `n < 2^53`;
`d` is a power of two in the source, so the division is exact then). -/
def fmtOneDecimal (n d : Nat) : String :=
  let t := 10 * n
  let q := t / d
  let r := t % d
  let rq :=
    if d < 2 * r then q + 1
    else if 2 * r < d then q
    else if q % 2 = 0 then q else q + 1
  toString (rq / 10) ++ "." ++ toString (rq % 10)

/-- Model of Go `fmt.Sprintf "%.0f"` applied to `float64(n)/float64(d)`:
round `n/d` half to even, printed without a decimal point.  Exact under the
same conditions as `fmtOneDecimal`. -/
def fmtZeroDecimal (n d : Nat) : String :=
  let q := n / d
  let r := n % d
  let rq :=
    if d < 2 * r then q + 1
    else if 2 * r < d then q
    else if q % 2 = 0 then q else q + 1
  toString rq

/-- `formatMemory` (lines 442-455): extract the first digit run, parse it as
int64, and render `≥ 1 GiB` as `"x.y GB"`, `≥ 1 MiB` as `"x MB"`, and
anything else (including unparsable input) as the original string. -/
def formatMemory (memStr : String) : String :=
  let m := firstDigitRun memStr.data
  if m ≠ [] then
    match goParseInt64 (String.mk m) with
    | some bytes =>
      if 1024 * 1024 * 1024 ≤ bytes then
        fmtOneDecimal bytes (1024 * 1024 * 1024) ++ " GB"
      else if 1024 * 1024 ≤ bytes then
        fmtZeroDecimal bytes (1024 * 1024) ++ " MB"
      else memStr
    | none => memStr
  else memStr

/-! ## Block splitting (`splitIntoBlocks`, lines 405-426) -/

/-- One step of the `splitIntoBlocks` loop: a blank line flushes a nonempty
current block; a nonempty line is appended to the current block with a
newline separator. -/
def splitBlockStep (st : List String × String) (line : String) : List String × String :=
  let (blocks, cur) := st
  if goTrimSpace line = "" then
    if cur ≠ "" then (blocks ++ [cur], "") else (blocks, cur)
  else
    if cur ≠ "" then (blocks, cur ++ "\n" ++ line) else (blocks, line)

/-- `splitIntoBlocks` (lines 405-426): divide text into chunks separated by
blank lines, flushing the trailing chunk. -/
def splitIntoBlocks (output : String) : List String :=
  let st := (goLines output).foldl splitBlockStep ([], "")
  if st.2 ≠ "" then st.1 ++ [st.2] else st.1

/-! ## Specialized leftmost-match scanners for the source's fixed regexps

Go's `regexp` (RE2) finds the leftmost match and resolves submatches as a
backtracking engine would.  For each fixed pattern in the source we embed a
`tryAt` matcher that decides a match anchored at a position (returning the
needed capture and, for `FindAll`, the remaining input after the match) and
drive it across the text left to right. -/

/-- Leftmost match: try the matcher at each position left to right.  (All
the source's patterns require at least one character, so the end position
need not be tried.) -/
def findFirstMatch (tryAt : List Char → Option α) : List Char → Option α
  | [] => none
  | c :: rest =>
    match tryAt (c :: rest) with
    | some a => some a
    | none => findFirstMatch tryAt rest

/-- All leftmost, non-overlapping matches (Go `FindAllStringSubmatch _ (-1)`):
after a match, scanning resumes at the match end; positions are otherwise
advanced one rune at a time.  Fueled: every step consumes at least one rune,
so fuel `s.length` suffices. -/
def findAllAux (tryAt : List Char → Option (α × List Char)) : Nat → List Char → List α
  | 0, _ => []
  | fuel + 1, s =>
    match s with
    | [] => []
    | c :: rest =>
      match tryAt (c :: rest) with
      | some (a, r) => a :: findAllAux tryAt fuel r
      | none => findAllAux tryAt fuel rest

/-- Matcher for `"<key>":\s*"([^"]+)"` anchored at a position: the literal
quoted key and colon, greedy `\s*`, then a nonempty maximal run of
non-quote runes closed by a quote (greedy `[^"]+` followed by a literal
quote admits no other split). -/
def tryQuotedKV (key : List Char) (s : List Char) : Option (List Char) :=
  let lit := '"' :: key ++ ['"', ':']
  if listStartsWith lit s then
    let afterWs := (s.drop lit.length).dropWhile isRe2Space
    match afterWs with
    | '"' :: rest =>
      let cap := rest.takeWhile (fun c => c ≠ '"')
      if cap ≠ [] && (rest.drop cap.length).head? = some '"' then some cap else none
    | _ => none
  else none

/-- Matcher for `"<key>":\s*(\d+)` anchored at a position. -/
def tryNumKV (key : List Char) (s : List Char) : Option (List Char) :=
  let lit := '"' :: key ++ ['"', ':']
  if listStartsWith lit s then
    let afterWs := (s.drop lit.length).dropWhile isRe2Space
    let cap := afterWs.takeWhile Char.isDigit
    if cap ≠ [] then some cap else none
  else none

/-- Matcher for `size:\s*(\d+)\s*bytes` anchored at a position.  The greedy
`\d+` and `\s*` pieces admit exactly the maximal-run split because a digit
can never satisfy the following `\s`/literal and vice versa. -/
def trySizeBytesAt (s : List Char) : Option (List Char) :=
  if listStartsWith "size:".data s then
    let afterWs := (s.drop 5).dropWhile isRe2Space
    let cap := afterWs.takeWhile Char.isDigit
    if cap ≠ [] && listStartsWith "bytes".data ((afterWs.drop cap.length).dropWhile isRe2Space)
    then some cap else none
  else none

/-- Matcher for the version tail `\d+\.\d+(?:\.\d+)?` anchored at a
position (greedy digit runs; the optional third component is taken exactly
when a dot followed by a digit follows). -/
def tryVersionNum (s : List Char) : Option (List Char) :=
  let d1 := s.takeWhile Char.isDigit
  if d1 = [] then none else
  match s.drop d1.length with
  | '.' :: rest2 =>
    let d2 := rest2.takeWhile Char.isDigit
    if d2 = [] then none else
    match rest2.drop d2.length with
    | '.' :: rest3 =>
      let d3 := rest3.takeWhile Char.isDigit
      if d3 = [] then some (d1 ++ '.' :: d2)
      else some (d1 ++ '.' :: d2 ++ '.' :: d3)
    | _ => some (d1 ++ '.' :: d2)
  | _ => none

/-- The lazy `.*?` scan of `NVIDIA.*?(\d+\.\d+(?:\.\d+)?)`: advance over
non-newline runes until the version pattern matches. -/
def scanForVersion : List Char → Option (List Char)
  | [] => none
  | c :: rest =>
    if c = '\n' then none
    else
      match tryVersionNum (c :: rest) with
      | some v => some v
      | none => scanForVersion rest

/-- Matcher for `NVIDIA.*?(\d+\.\d+(?:\.\d+)?)` anchored at a position. -/
def tryNvidiaAt (s : List Char) : Option (List Char) :=
  if listStartsWith "NVIDIA".data s then scanForVersion (s.drop 6) else none

/-- `extractNvidiaVersionFromProc` (lines 486-492): first submatch of
`NVIDIA.*?(\d+\.\d+(?:\.\d+)?)`, or `""`. -/
def extractNvidiaVersionFromProc (data : String) : String :=
  match findFirstMatch tryNvidiaAt data.data with
  | some v => String.mk v
  | none => ""

/-- `extractMemoryFromSize` (lines 494-502): first submatch of
`size:\s*(\d+)\s*bytes`, formatted when it parses as int64, else `""`. -/
def extractMemoryFromSize (line : String) : String :=
  match findFirstMatch trySizeBytesAt line.data with
  | some digits =>
    match goParseInt64 (String.mk digits) with
    | some _ => formatMemory (String.mk digits)
    | none => ""
  | none => ""

/-- Is the rune a lower-case hexadecimal digit (`[0-9a-f]`)? -/
def isHexLower (c : Char) : Bool :=
  c.isDigit || ('a' ≤ c && c ≤ 'f')

/-- The anchored pattern `^([0-9a-f]{2}:[0-9a-f]{2}\.[0-9a-f])` of
`extractPCIAddress`: the seven leading runes when they fit the shape. -/
def pciMatchAt : List Char → Option (List Char)
  | a :: b :: c :: d :: e :: f :: g :: _ =>
    if isHexLower a && isHexLower b && c = ':' && isHexLower d && isHexLower e &&
       f = '.' && isHexLower g
    then some [a, b, c, d, e, f, g] else none
  | _ => none

/-- The line-pair loop of `extractPCIAddress` (lines 473-484): for each line
(beyond the first) containing the model, return the anchored bus-address
match of the previous line if it matches; otherwise keep scanning. -/
def extractPCIAddressAux (model : String) : List String → String
  | prevLine :: line :: rest =>
    if goContains line model then
      match pciMatchAt prevLine.data with
      | some addr => String.mk addr
      | none => extractPCIAddressAux model (line :: rest)
    else extractPCIAddressAux model (line :: rest)
  | _ => ""

/-- `extractPCIAddress` (lines 473-484). -/
def extractPCIAddress (output model : String) : String :=
  extractPCIAddressAux model (goLines output)

/-! ### The lspci regexp `(?i)(VGA|3D|Display).*?:\s*(.+)` -/

/-- Case-insensitive literal test (the `(?i)` flag on the alternation). -/
def ciStartsWith (pat : List Char) (s : List Char) : Bool :=
  listStartsWith pat (s.map Char.toLower)

/-- The alternation `(?i)(VGA|3D|Display)` anchored at a position: the
number of runes consumed by the first matching alternative. -/
def lspciAltLen (s : List Char) : Option Nat :=
  if ciStartsWith "vga".data s then some 3
  else if ciStartsWith "3d".data s then some 2
  else if ciStartsWith "display".data s then some 7
  else none

/-- The lazy `.*?:` piece: advance minimally over non-newline runes to the
first colon; fail at a newline or the end. -/
def scanToColon : List Char → Option (List Char)
  | [] => none
  | c :: cs => if c = ':' then some cs else if c = '\n' then none else scanToColon cs

/-- `(.+)` anchored at a position: the maximal nonempty run of non-newline
runes, with the rest of the input. -/
def dotPlusAt (s : List Char) : Option (List Char × List Char) :=
  match s with
  | c :: _ =>
    if c ≠ '\n' then
      some (s.takeWhile (fun x => x ≠ '\n'), s.dropWhile (fun x => x ≠ '\n'))
    else none
  | [] => none

/-- Greedy `\s*` followed by `(.+)`: try the longest whitespace skip first
and back off one rune at a time (backtracking semantics of `\s*(.+)`). -/
def wsThenCap (s : List Char) : Nat → Option (List Char × List Char)
  | 0 => dotPlusAt s
  | j + 1 =>
    match dotPlusAt (s.drop (j + 1)) with
    | some r => some r
    | none => wsThenCap s j

/-- The full lspci pattern anchored at a position: alternation, lazy scan to
a colon, then `\s*(.+)`; yields the second capture group and the rest of
the input after the match. -/
def tryLspciAt (s : List Char) : Option (List Char × List Char) :=
  match lspciAltLen s with
  | some k =>
    match scanToColon (s.drop k) with
    | some afterColon =>
      wsThenCap afterColon ((afterColon.takeWhile isRe2Space).length)
    | none => none
  | none => none

/-! ## The output parsers -/

/-- One line of the Windows key/value scan (lines 233-255): split at the
first colon, lower-case and trim the key, and assign by substring-matched
field name. -/
def winLineStep (gpu : GPUInfo) (rawLine : String) : GPUInfo :=
  let line := goTrimSpace rawLine
  if line = "" then gpu
  else
    match goSplitColon2 line with
    | some (k, v) =>
      let key := goTrimSpace (goToLower k)
      let value := goTrimSpace v
      if goContains key "name" then { gpu with Model := value }
      else if goContains key "videoprocessor" then
        if gpu.Model = "" then { gpu with Model := value } else gpu
      else if goContains key "driverversion" then { gpu with DriverVersion := value }
      else if goContains key "adapterram" then { gpu with Memory := formatMemory value }
      else gpu
    | none => gpu

/-- The per-chunk field extraction of `parseWindowsJSONOutput`
(lines 511-523): the three regexp captures applied to one chunk. -/
def jsonBlockToGPU (block : String) : GPUInfo :=
  let gpu0 : GPUInfo := {}
  let gpu1 :=
    match findFirstMatch (tryQuotedKV "Name".data) block.data with
    | some v => { gpu0 with Model := String.mk v }
    | none => gpu0
  let gpu2 :=
    match findFirstMatch (tryQuotedKV "DriverVersion".data) block.data with
    | some v => { gpu1 with DriverVersion := String.mk v }
    | none => gpu1
  match findFirstMatch (tryNumKV "AdapterRAM".data) block.data with
  | some v => { gpu2 with Memory := formatMemory (String.mk v) }
  | none => gpu2

/-- `parseWindowsJSONOutput` (lines 504-533): split on `"\x7d,\x7b"`, pull
the three regexp captures per chunk, and keep non-empty, non-generic
models. -/
def parseWindowsJSONOutput (output : String) : List GPUInfo :=
  (goSplitOnStr output "\x7d,\x7b").filterMap (fun block =>
    let gpu := jsonBlockToGPU block
    if gpu.Model ≠ "" && !isGenericGPU gpu.Model then
      some { gpu with Vendor := determineVendorFromOutput gpu.Model, RawOutput := block }
    else none)

/-- `parseWindowsGPUOutput` (lines 220-265): dispatch to the JSON parser
when braces are present, otherwise parse blank-line-separated key/value
blocks, keeping non-empty, non-generic models. -/
def parseWindowsGPUOutput (output : String) : List GPUInfo :=
  if goContains output "\x7b" && goContains output "\x7d" then
    parseWindowsJSONOutput output
  else
    (splitIntoBlocks output).filterMap (fun block =>
      let gpu := (goLines block).foldl winLineStep { RawOutput := block }
      if gpu.Model ≠ "" && !isGenericGPU gpu.Model then
        some { gpu with Vendor := determineVendorFromOutput gpu.Model }
      else none)

/-- `parseLinuxLspciOutput` (lines 267-294): one candidate per regexp match,
dropping generic models; the PCI address is extracted positionally from the
whole output (the source's non-empty guard before the assignment is the
identity on the field's zero value). -/
def parseLinuxLspciOutput (output : String) : List GPUInfo :=
  (findAllAux tryLspciAt output.data.length output.data).filterMap (fun m =>
    let model := goTrimSpace (String.mk m)
    if !isGenericGPU model then
      some { Vendor := determineVendorFromOutput model, Model := model,
             RawOutput := output, PCIAddress := extractPCIAddress output model }
    else none)

/-- One line of the lshw scan (lines 303-314): `product:`/`vendor:` prefixes
and `size:`/`bytes` lines. -/
def lshwLineStep (gpu : GPUInfo) (rawLine : String) : GPUInfo :=
  let line := goTrimSpace rawLine
  if goStartsWith line "product:" then
    { gpu with Model := goTrimSpace (goTrimHead line "product:") }
  else if goStartsWith line "vendor:" then
    let vendor := goTrimSpace (goTrimHead line "vendor:")
    if gpu.Vendor = "" || gpu.Vendor = "unknown" then
      { gpu with Vendor := normalizeVendorName vendor }
    else gpu
  else if goContains line "size:" && goContains line "bytes" then
    { gpu with Memory := extractMemoryFromSize line }
  else gpu

/-- `parseLinuxLshwOutput` (lines 296-326): per block, scan lines, then keep
non-empty non-generic models, falling back to the heuristic classifier when
no usable vendor was reported directly. -/
def parseLinuxLshwOutput (output : String) : List GPUInfo :=
  (splitIntoBlocks output).filterMap (fun block =>
    let gpu := (goLines block).foldl lshwLineStep { RawOutput := block }
    if gpu.Model ≠ "" && !isGenericGPU gpu.Model then
      if gpu.Vendor = "" || gpu.Vendor = "unknown" then
        some { gpu with Vendor := determineVendorFromOutput gpu.Model }
      else some gpu
    else none)

/-- One line of the macOS scan (lines 335-345): `Chipset Model:` and `VRAM`
lines. -/
def macLineStep (gpu : GPUInfo) (rawLine : String) : GPUInfo :=
  let line := goTrimSpace rawLine
  if goContains line "Chipset Model:" then
    match goSplitColon2 line with
    | some (_, v) => { gpu with Model := goTrimSpace v }
    | none => gpu
  else if goContains line "VRAM" && goContains line ":" then
    match goSplitColon2 line with
    | some (_, v) => { gpu with Memory := goTrimSpace v }
    | none => gpu
  else gpu

/-- `parseMacGPUOutput` (lines 328-355): per block, scan lines; any
non-empty model is accepted (note: no generic-device filter here, unlike
every other parser). -/
def parseMacGPUOutput (output : String) : List GPUInfo :=
  (splitIntoBlocks output).filterMap (fun block =>
    let gpu := (goLines block).foldl macLineStep { RawOutput := block }
    if gpu.Model ≠ "" then
      some { gpu with Vendor := determineVendorFromOutput gpu.Model }
    else none)

/-- `parseLinuxGLXOutput` (lines 535-555): one candidate per
`OpenGL renderer string:` line, dropping generic models. -/
def parseLinuxGLXOutput (output : String) : List GPUInfo :=
  (goLines output).filterMap (fun line =>
    if goContains line "OpenGL renderer string:" then
      match goSplitColon2 line with
      | some (_, v) =>
        let model := goTrimSpace v
        if !isGenericGPU model then
          some { Vendor := determineVendorFromOutput model, Model := model,
                 RawOutput := output }
        else none
      | none => none
    else none)

/-! ## Merging (`mergeLinuxGPUInfo`, lines 557-586) -/

/-- `areGPUsSimilar` (lines 588-591): equal vendor and either model string
contains the other. -/
def areGPUsSimilar (gpu1 gpu2 : GPUInfo) : Bool :=
  gpu1.Vendor = gpu2.Vendor &&
    (goContains gpu1.Model gpu2.Model || goContains gpu2.Model gpu1.Model)

/-- The in-place field merge of lines 567-575: each of memory, driver
version and PCI address is back-filled from the new record only when
previously empty and the new value is non-empty. -/
def mergeFields (e n : GPUInfo) : GPUInfo :=
  { e with
    Memory := if e.Memory = "" && n.Memory ≠ "" then n.Memory else e.Memory,
    DriverVersion :=
      if e.DriverVersion = "" && n.DriverVersion ≠ "" then n.DriverVersion
      else e.DriverVersion,
    PCIAddress :=
      if e.PCIAddress = "" && n.PCIAddress ≠ "" then n.PCIAddress else e.PCIAddress }

/-- The inner indexed loop of `mergeLinuxGPUInfo`: merge the new record into
the first similar existing record (merging stops at the `break`);
`none` when no record is similar. -/
def mergeIntoList (newGPU : GPUInfo) : List GPUInfo → Option (List GPUInfo)
  | [] => none
  | e :: rest =>
    if areGPUsSimilar e newGPU then some (mergeFields e newGPU :: rest)
    else (mergeIntoList newGPU rest).map (fun r => e :: r)

/-- `mergeLinuxGPUInfo` (lines 557-586): fold the new records into a copy of
the existing list; an unmatched new record is appended. -/
def mergeLinuxGPUInfo (existing new : List GPUInfo) : List GPUInfo :=
  new.foldl (fun result newGPU =>
    match mergeIntoList newGPU result with
    | some r => r
    | none => result ++ [newGPU]) existing

/-! ## Orchestration

External process invocations and the `/proc` file read are inputs: a
`ProbeEnv` records, for each external source the detector consults, either
the text it produced (`Except.ok`) or a failure, carrying the error text
used in formatted messages (`Except.error`).  A timed-out or non-zero-exit
command is an `Except.error`. -/

structure ProbeEnv where
  winCIM : Except String String
  winWMI : Except String String
  winWMIC : Except String String
  lspciPiped : Except String String
  lspciSimple : Except String String
  lshw : Except String String
  nvidiaProcFile : Except String String
  glxinfo : Except String String
  systemProfiler : Except String String

/-- `detectWindowsGPUsPowerShellCIM` (lines 97-106): parse the command
output, or propagate the invocation failure. -/
def detectWindowsGPUsPowerShellCIM (env : ProbeEnv) : Except String (List GPUInfo) :=
  env.winCIM.map parseWindowsGPUOutput

/-- `detectWindowsGPUsPowerShellWMI` (lines 108-117). -/
def detectWindowsGPUsPowerShellWMI (env : ProbeEnv) : Except String (List GPUInfo) :=
  env.winWMI.map parseWindowsGPUOutput

/-- `detectWindowsGPUsWMIC` (lines 119-126). -/
def detectWindowsGPUsWMIC (env : ProbeEnv) : Except String (List GPUInfo) :=
  env.winWMIC.map parseWindowsGPUOutput

/-- The method loop of `detectWindowsGPUs` (lines 84-88): the first method
that returns without error and with at least one record wins. -/
def windowsFirstSuccess : List (Except String (List GPUInfo)) → Option (List GPUInfo)
  | [] => none
  | r :: rest =>
    match r with
    | .ok gpus => if gpus.length > 0 then some gpus else windowsFirstSuccess rest
    | .error _ => windowsFirstSuccess rest

/-- The sentinel of `detectWindowsGPUs` (lines 90-94). -/
def windowsSentinel : GPUInfo :=
  { Vendor := "unknown", Model := "unknown",
    Error := "Failed to detect GPU using all Windows methods" }

/-- `detectWindowsGPUs` (lines 74-95). -/
def detectWindowsGPUs (env : ProbeEnv) : List GPUInfo × Option String :=
  match windowsFirstSuccess
      [detectWindowsGPUsPowerShellCIM env,
       detectWindowsGPUsPowerShellWMI env,
       detectWindowsGPUsWMIC env] with
  | some gpus => (gpus, none)
  | none => ([windowsSentinel], none)

/-- `tryLinuxLspci` (lines 162-172): the piped invocation, falling back to
plain `lspci`; `[]` when both invocations fail. -/
def tryLinuxLspci (env : ProbeEnv) : List GPUInfo :=
  match env.lspciPiped with
  | .ok out => parseLinuxLspciOutput out
  | .error _ =>
    match env.lspciSimple with
    | .ok out => parseLinuxLspciOutput out
    | .error _ => []

/-- `tryLinuxLshw` (lines 174-181). -/
def tryLinuxLshw (env : ProbeEnv) : List GPUInfo :=
  match env.lshw with
  | .ok out => parseLinuxLshwOutput out
  | .error _ => []

/-- `tryLinuxNvidiaProc` (lines 183-194): a fixed NVIDIA record when
`/proc/driver/nvidia/version` is readable, else a bare `unknown` record. -/
def tryLinuxNvidiaProc (env : ProbeEnv) : GPUInfo :=
  match env.nvidiaProcFile with
  | .ok data =>
    { Vendor := "nvidia", Model := "NVIDIA GPU",
      DriverVersion := extractNvidiaVersionFromProc data, RawOutput := data }
  | .error _ => { Vendor := "unknown" }

/-- `tryLinuxGLX` (lines 196-203). -/
def tryLinuxGLX (env : ProbeEnv) : List GPUInfo :=
  match env.glxinfo with
  | .ok out => parseLinuxGLXOutput out
  | .error _ => []

/-- The sentinel of `detectLinuxGPUs` (lines 151-157). -/
def linuxSentinel : GPUInfo :=
  { Vendor := "unknown", Model := "unknown",
    Error := "Could not detect GPU. Consider installing lspci, lshw, or mesa-utils" }

/-- `detectLinuxGPUs` (lines 128-160): run all four probes, merging each
non-empty later result into the accumulated list. -/
def detectLinuxGPUs (env : ProbeEnv) : List GPUInfo × Option String :=
  let lspciGPUs := tryLinuxLspci env
  let gpus1 : List GPUInfo := if lspciGPUs.length > 0 then [] ++ lspciGPUs else []
  let lshwGPUs := tryLinuxLshw env
  let gpus2 := if lshwGPUs.length > 0 then mergeLinuxGPUInfo gpus1 lshwGPUs else gpus1
  let nvidiaGPU := tryLinuxNvidiaProc env
  let gpus3 :=
    if nvidiaGPU.Vendor ≠ "unknown" then mergeLinuxGPUInfo gpus2 [nvidiaGPU] else gpus2
  let glxGPUs := tryLinuxGLX env
  let gpus4 := if glxGPUs.length > 0 then mergeLinuxGPUInfo gpus3 glxGPUs else gpus3
  if gpus4.length = 0 then ([linuxSentinel], none) else (gpus4, none)

/-- The failure sentinel of `detectMacGPUs` (lines 208-212), carrying the
formatted invocation error. -/
def macSentinel (errText : String) : GPUInfo :=
  { Vendor := "unknown", Model := "unknown",
    Error := "Failed to run system_profiler: " ++ errText }

/-- `detectMacGPUs` (lines 205-216). -/
def detectMacGPUs (env : ProbeEnv) : List GPUInfo × Option String :=
  match env.systemProfiler with
  | .ok out => (parseMacGPUOutput out, none)
  | .error e => ([macSentinel e], none)

/-- The unsupported-platform sentinel of `DetectGPUs` (lines 44-48). -/
def unsupportedSentinel (goos : String) : GPUInfo :=
  { Vendor := "unknown", Model := "unknown",
    Error := "Unsupported operating system: " ++ goos }

/-- `DetectGPUs` (lines 35-50): branch on the host OS identity (Go's
`switch runtime.GOOS` is an equality chain on the platform string). -/
def DetectGPUs (goos : String) (env : ProbeEnv) : List GPUInfo × Option String :=
  if goos = "windows" then detectWindowsGPUs env
  else if goos = "linux" then detectLinuxGPUs env
  else if goos = "darwin" then detectMacGPUs env
  else ([unsupportedSentinel goos], none)

/-- Go `fmt`'s `%v` of an `error` value: `"<nil>"` for nil. -/
def errFmt : Option String → String
  | none => "<nil>"
  | some e => e

/-- `DetectGPUVendor` (lines 53-64): the first detected record, or a
sentinel when detection errored or produced no records. -/
def DetectGPUVendor (goos : String) (env : ProbeEnv) : GPUInfo :=
  let res := DetectGPUs goos env
  if h : res.2 ≠ none ∨ res.1 = [] then
    { Vendor := "unknown", Model := "unknown",
      Error := "Detection failed: " ++ errFmt res.2 }
  else
    res.1.head (fun hnil => h (Or.inr hnil))

/-! ## Probe-outcome predicates and concrete environments used in the
theorems below -/

/-- A Windows probe strategy contributes nothing when its invocation fails
or its output parses to zero records (the negation of the success test on
line 85). -/
def winMethodFails (r : Except String String) : Prop :=
  match r with
  | .error _ => True
  | .ok o => parseWindowsGPUOutput o = []

/-- All four Linux probes contribute nothing. -/
def linuxAllProbesEmpty (env : ProbeEnv) : Prop :=
  tryLinuxLspci env = [] ∧ tryLinuxLshw env = [] ∧
  (tryLinuxNvidiaProc env).Vendor = "unknown" ∧ tryLinuxGLX env = []

/-- An environment where every external probe fails. -/
def envAllFail : ProbeEnv :=
  { winCIM := .error "exec failed", winWMI := .error "exec failed",
    winWMIC := .error "exec failed", lspciPiped := .error "exec failed",
    lspciSimple := .error "exec failed", lshw := .error "exec failed",
    nvidiaProcFile := .error "exec failed", glxinfo := .error "exec failed",
    systemProfiler := .error "exec failed" }

/-- An environment where `system_profiler` runs but produces output that
parses to zero records. -/
def envMacEmptyOutput : ProbeEnv :=
  { envAllFail with systemProfiler := .ok "" }

/-- An environment where only `lshw` answers, reporting a vendor string
outside the known pattern set. -/
def envLshwMatrox : ProbeEnv :=
  { envAllFail with lshw := .ok "vendor: Matrox\nproduct: MGA G200" }

/-- An environment where the CIM strategy fails and the WMI strategy
produces one parsable record. -/
def envWMIWins : ProbeEnv :=
  { envAllFail with winWMI := .ok "Name: NVIDIA GeForce RTX 3080" }

/-! ## Shared helper lemmas -/

/-- With no similar existing record, the inner merge loop reports no match. -/
lemma mergeIntoList_eq_none {g : GPUInfo} :
    ∀ {l : List GPUInfo}, (∀ x ∈ l, areGPUsSimilar x g = false) →
      mergeIntoList g l = none := by
  intro l
  induction l with
  | nil => intro _; rfl
  | cons e rest ih =>
    intro h
    have he := h e (List.mem_cons_self e rest)
    simp [mergeIntoList, he, ih (fun x hx => h x (List.mem_cons_of_mem e hx))]

/-- The inner merge loop updates exactly the first similar record. -/
lemma mergeIntoList_eq_some {g e : GPUInfo} :
    ∀ {pre : List GPUInfo} (post : List GPUInfo),
      (∀ x ∈ pre, areGPUsSimilar x g = false) → areGPUsSimilar e g = true →
      mergeIntoList g (pre ++ e :: post) = some (pre ++ mergeFields e g :: post) := by
  intro pre
  induction pre with
  | nil => intro post _ he; simp [mergeIntoList, he]
  | cons p ps ih =>
    intro post h he
    have hp := h p (List.mem_cons_self p ps)
    simp [mergeIntoList, hp, ih post (fun x hx => h x (List.mem_cons_of_mem p hx)) he]

/-- Preservation of a predicate along a left fold. -/
lemma foldl_pres {α β : Type} (P : β → Prop) (f : β → α → β)
    (hf : ∀ b a, P b → P (f b a)) :
    ∀ (l : List α) (b : β), P b → P (l.foldl f b) := by
  intro l
  induction l with
  | nil => intro b hb; exact hb
  | cons x xs ih => intro b hb; exact ih (f b x) (hf b x hb)

/-- The heuristic classifier only ever returns one of the five tags. -/
lemma determineVendorFromOutput_mem (s : String) :
    determineVendorFromOutput s ∈ vendorTags := by
  unfold determineVendorFromOutput
  dsimp only
  split_ifs <;> simp [vendorTags]

/-- The direct-vendor normalizer returns a known tag or the lower-cased
input. -/
lemma normalizeVendorName_cases (v : String) :
    normalizeVendorName v ∈ vendorTags ∨ normalizeVendorName v = goToLower v := by
  unfold normalizeVendorName
  dsimp only
  split_ifs <;> simp [vendorTags]

/-- `winLineStep` never writes the error field. -/
lemma winLineStep_error (gpu : GPUInfo) (line : String) :
    (winLineStep gpu line).Error = gpu.Error := by
  unfold winLineStep
  dsimp only
  repeat' split
  all_goals rfl

/-- `macLineStep` never writes the error field. -/
lemma macLineStep_error (gpu : GPUInfo) (line : String) :
    (macLineStep gpu line).Error = gpu.Error := by
  unfold macLineStep
  dsimp only
  repeat' split
  all_goals rfl

/-- `lshwLineStep` never writes the error field. -/
lemma lshwLineStep_error (gpu : GPUInfo) (line : String) :
    (lshwLineStep gpu line).Error = gpu.Error := by
  unfold lshwLineStep
  dsimp only
  repeat' split
  all_goals rfl

/-- Vendor values reachable in the lshw line scan: empty (never assigned),
a known tag, or the lower-casing of some reported string. -/
lemma lshwLineStep_vendor (gpu : GPUInfo) (line : String)
    (h : gpu.Vendor = "" ∨ gpu.Vendor ∈ vendorTags ∨ ∃ v, gpu.Vendor = goToLower v) :
    (lshwLineStep gpu line).Vendor = "" ∨ (lshwLineStep gpu line).Vendor ∈ vendorTags ∨
      ∃ v, (lshwLineStep gpu line).Vendor = goToLower v := by
  unfold lshwLineStep
  dsimp only
  split_ifs with h1 h2 h3 h4
  · exact h
  · rcases normalizeVendorName_cases (goTrimSpace (goTrimHead (goTrimSpace line) "vendor:"))
      with hc | hc
    · exact Or.inr (Or.inl hc)
    · exact Or.inr (Or.inr ⟨_, hc⟩)
  · exact h
  · exact h
  · exact h

/-- The JSON chunk extractor never writes the error field. -/
lemma jsonBlockToGPU_error (block : String) : (jsonBlockToGPU block).Error = "" := by
  unfold jsonBlockToGPU
  dsimp only
  repeat' split
  all_goals rfl

/-- Shape of every record emitted by the Windows JSON parser. -/
lemma mem_parseWindowsJSONOutput {out : String} {g : GPUInfo}
    (h : g ∈ parseWindowsJSONOutput out) :
    g.Vendor = determineVendorFromOutput g.Model ∧ g.Model ≠ "" ∧
    isGenericGPU g.Model = false ∧ g.Error = "" := by
  simp only [parseWindowsJSONOutput, List.mem_filterMap] at h
  obtain ⟨block, _, hf⟩ := h
  try dsimp only at hf
  split at hf
  next hcond =>
    obtain rfl := Option.some.inj hf
    simp only [Bool.and_eq_true, Bool.not_eq_true', decide_eq_true_eq] at hcond
    exact ⟨rfl, hcond.1, hcond.2, by simpa using jsonBlockToGPU_error block⟩
  next => cases hf

/-- Shape of every record emitted by the Windows key/value or JSON parser. -/
lemma mem_parseWindowsGPUOutput {out : String} {g : GPUInfo}
    (h : g ∈ parseWindowsGPUOutput out) :
    g.Vendor = determineVendorFromOutput g.Model ∧ g.Model ≠ "" ∧
    isGenericGPU g.Model = false ∧ g.Error = "" := by
  unfold parseWindowsGPUOutput at h
  split at h
  · exact mem_parseWindowsJSONOutput h
  · simp only [List.mem_filterMap] at h
    obtain ⟨block, _, hf⟩ := h
    try dsimp only at hf
    split at hf
    next hcond =>
      obtain rfl := Option.some.inj hf
      simp only [Bool.and_eq_true, Bool.not_eq_true', decide_eq_true_eq] at hcond
      refine ⟨rfl, hcond.1, hcond.2, ?_⟩
      have he : ((goLines block).foldl winLineStep { RawOutput := block } : GPUInfo).Error = "" :=
        foldl_pres (fun x : GPUInfo => x.Error = "") winLineStep
          (fun b a hb => (winLineStep_error b a).trans hb)
          (goLines block) { RawOutput := block } rfl
      simpa using he
    next => cases hf

/-- Shape of every record emitted by the lspci parser. -/
lemma mem_parseLinuxLspciOutput {out : String} {g : GPUInfo}
    (h : g ∈ parseLinuxLspciOutput out) :
    g.Vendor = determineVendorFromOutput g.Model ∧
    isGenericGPU g.Model = false ∧ g.Error = "" := by
  simp only [parseLinuxLspciOutput, List.mem_filterMap] at h
  obtain ⟨m, _, hf⟩ := h
  try dsimp only at hf
  split at hf
  next hcond =>
    obtain rfl := Option.some.inj hf
    simp only [Bool.not_eq_true'] at hcond
    exact ⟨rfl, hcond, rfl⟩
  next => cases hf

/-- Shape of every record emitted by the glxinfo parser. -/
lemma mem_parseLinuxGLXOutput {out : String} {g : GPUInfo}
    (h : g ∈ parseLinuxGLXOutput out) :
    g.Vendor = determineVendorFromOutput g.Model ∧
    isGenericGPU g.Model = false ∧ g.Error = "" := by
  simp only [parseLinuxGLXOutput, List.mem_filterMap] at h
  obtain ⟨line, _, hf⟩ := h
  try dsimp only at hf
  split at hf
  · split at hf
    next =>
      try dsimp only at hf
      split at hf
      next hcond =>
        obtain rfl := Option.some.inj hf
        simp only [Bool.not_eq_true'] at hcond
        exact ⟨rfl, hcond, rfl⟩
      next => cases hf
    next => cases hf
  · cases hf

/-- Shape of every record emitted by the macOS parser: note the absence of
a generic-model conclusion — this parser applies no such filter. -/
lemma mem_parseMacGPUOutput {out : String} {g : GPUInfo}
    (h : g ∈ parseMacGPUOutput out) :
    g.Vendor = determineVendorFromOutput g.Model ∧ g.Model ≠ "" ∧ g.Error = "" := by
  simp only [parseMacGPUOutput, List.mem_filterMap] at h
  obtain ⟨block, _, hf⟩ := h
  try dsimp only at hf
  split at hf
  next hcond =>
    obtain rfl := Option.some.inj hf
    refine ⟨rfl, hcond, ?_⟩
    have he : ((goLines block).foldl macLineStep { RawOutput := block } : GPUInfo).Error = "" :=
      foldl_pres (fun x : GPUInfo => x.Error = "") macLineStep
        (fun b a hb => (macLineStep_error b a).trans hb)
        (goLines block) { RawOutput := block } rfl
    simpa using he
  next => cases hf

/-- Shape of every record emitted by the lshw parser: the vendor may fall
outside the tag set, but only as the lower-casing of a reported string. -/
lemma mem_parseLinuxLshwOutput {out : String} {g : GPUInfo}
    (h : g ∈ parseLinuxLshwOutput out) :
    (g.Vendor ∈ vendorTags ∨ ∃ v, g.Vendor = goToLower v) ∧ g.Model ≠ "" ∧
    isGenericGPU g.Model = false ∧ g.Error = "" := by
  simp only [parseLinuxLshwOutput, List.mem_filterMap] at h
  obtain ⟨block, _, hf⟩ := h
  try dsimp only at hf
  have he : ((goLines block).foldl lshwLineStep { RawOutput := block } : GPUInfo).Error = "" :=
    foldl_pres (fun x : GPUInfo => x.Error = "") lshwLineStep
      (fun b a hb => (lshwLineStep_error b a).trans hb)
      (goLines block) { RawOutput := block } rfl
  have hv : ((goLines block).foldl lshwLineStep { RawOutput := block } : GPUInfo).Vendor = "" ∨
      ((goLines block).foldl lshwLineStep { RawOutput := block } : GPUInfo).Vendor ∈ vendorTags ∨
      ∃ v, ((goLines block).foldl lshwLineStep { RawOutput := block } : GPUInfo).Vendor = goToLower v :=
    foldl_pres
      (fun x : GPUInfo => x.Vendor = "" ∨ x.Vendor ∈ vendorTags ∨ ∃ v, x.Vendor = goToLower v)
      lshwLineStep (fun b a hb => lshwLineStep_vendor b a hb)
      (goLines block) { RawOutput := block } (Or.inl rfl)
  split at hf
  next hcond =>
    simp only [Bool.and_eq_true, Bool.not_eq_true', decide_eq_true_eq] at hcond
    split at hf
    next =>
      obtain rfl := Option.some.inj hf
      exact ⟨Or.inl (determineVendorFromOutput_mem _), hcond.1, hcond.2, by simpa using he⟩
    next hvk =>
      obtain rfl := Option.some.inj hf
      simp only [Bool.or_eq_true, decide_eq_true_eq, not_or] at hvk
      rcases hv with h0 | hmem | hlow
      · exact absurd h0 (by simpa using hvk.1)
      · exact ⟨Or.inl hmem, hcond.1, hcond.2, he⟩
      · exact ⟨Or.inr hlow, hcond.1, hcond.2, he⟩
  next => cases hf

/-! ## Claim theorems -/

/-- C8: merging an empty list of new records with `mergeLinuxGPUInfo`
returns the existing record set unchanged — same records, same order, same
field values. -/
theorem mergeLinuxGPUInfo_empty_identity :
    ∀ existing : List GPUInfo, mergeLinuxGPUInfo existing [] = existing :=
  fun _ => rfl

/-- Witness for C8 at a concrete record set. -/
theorem mergeLinuxGPUInfo_empty_identity_witness :
    mergeLinuxGPUInfo
      [{ Vendor := "nvidia", Model := "GeForce RTX 3080" },
       { Vendor := "intel", Model := "HD Graphics 620", Memory := "1.0 GB" }] [] =
    [{ Vendor := "nvidia", Model := "GeForce RTX 3080" },
     { Vendor := "intel", Model := "HD Graphics 620", Memory := "1.0 GB" }] :=
  mergeLinuxGPUInfo_empty_identity _

/-- C4: `mergeLinuxGPUInfo` merges a new record into the first existing
record it is similar to — back-filling exactly the empty memory, driver
version and PCI address fields and preserving every non-empty field
(including the model) — and appends a new record similar to no existing
record; in particular the 10.0 GB memory of a new `RTX 3080` record is
back-filled into an existing `GeForce RTX 3080` record whose model string
is retained. -/
theorem mergeLinuxGPUInfo_backfill :
    (∀ (pre : List GPUInfo) (e : GPUInfo) (post : List GPUInfo) (g : GPUInfo),
      (∀ x ∈ pre, areGPUsSimilar x g = false) → areGPUsSimilar e g = true →
      mergeLinuxGPUInfo (pre ++ e :: post) [g] = pre ++ mergeFields e g :: post) ∧
    (∀ (existing : List GPUInfo) (g : GPUInfo),
      (∀ x ∈ existing, areGPUsSimilar x g = false) →
      mergeLinuxGPUInfo existing [g] = existing ++ [g]) ∧
    (∀ e g : GPUInfo,
      (mergeFields e g).Vendor = e.Vendor ∧
      (mergeFields e g).Model = e.Model ∧
      (mergeFields e g).RawOutput = e.RawOutput ∧
      (mergeFields e g).Error = e.Error ∧
      (e.Memory = "" → (mergeFields e g).Memory = g.Memory) ∧
      (e.Memory ≠ "" → (mergeFields e g).Memory = e.Memory) ∧
      (e.DriverVersion = "" → (mergeFields e g).DriverVersion = g.DriverVersion) ∧
      (e.DriverVersion ≠ "" → (mergeFields e g).DriverVersion = e.DriverVersion) ∧
      (e.PCIAddress = "" → (mergeFields e g).PCIAddress = g.PCIAddress) ∧
      (e.PCIAddress ≠ "" → (mergeFields e g).PCIAddress = e.PCIAddress)) ∧
    mergeLinuxGPUInfo
        [{ Vendor := "nvidia", Model := "GeForce RTX 3080" }]
        [{ Vendor := "nvidia", Model := "RTX 3080", Memory := "10.0 GB" }] =
      [{ Vendor := "nvidia", Model := "GeForce RTX 3080", Memory := "10.0 GB" }] := by
  refine ⟨?_, ?_, ?_, by decide⟩
  · intro pre e post g hpre he
    simp [mergeLinuxGPUInfo, mergeIntoList_eq_some post hpre he]
  · intro existing g h
    simp [mergeLinuxGPUInfo, mergeIntoList_eq_none h]
  · intro e g
    refine ⟨rfl, rfl, rfl, rfl, ?_, ?_, ?_, ?_, ?_, ?_⟩ <;>
      intro h <;> simp [mergeFields, h] <;> (intro h2; exact h2.symm)

/-- Witness for C4: the general first-similar-match clause applied at the
concrete example of the claim. -/
theorem mergeLinuxGPUInfo_backfill_witness :
    mergeLinuxGPUInfo
        [{ Vendor := "amd", Model := "Radeon RX 580" },
         { Vendor := "nvidia", Model := "GeForce RTX 3080" }]
        [{ Vendor := "nvidia", Model := "RTX 3080", DriverVersion := "535.54" }] =
      [{ Vendor := "amd", Model := "Radeon RX 580" },
       { Vendor := "nvidia", Model := "GeForce RTX 3080", DriverVersion := "535.54" }] := by
  have h := mergeLinuxGPUInfo_backfill.1
    [{ Vendor := "amd", Model := "Radeon RX 580" }]
    { Vendor := "nvidia", Model := "GeForce RTX 3080" } []
    { Vendor := "nvidia", Model := "RTX 3080", DriverVersion := "535.54" }
    (by decide) (by decide)
  simpa using h

/-- C6: `determineVendorFromOutput` checks the NVIDIA, AMD, Intel and Apple
pattern groups in that order, returns the first matching group's tag,
`"unknown"` when none matches; hence a model containing an AMD pattern and
an Intel pattern but no NVIDIA pattern classifies as `"amd"`, e.g.
`"AMD Radeon with Intel Iris fallback"`. -/
theorem determineVendorFromOutput_order :
    (∀ s, containsAny (goToLower s) nvidiaPatterns = true →
      determineVendorFromOutput s = "nvidia") ∧
    (∀ s, containsAny (goToLower s) nvidiaPatterns = false →
      containsAny (goToLower s) amdPatterns = true →
      determineVendorFromOutput s = "amd") ∧
    (∀ s, containsAny (goToLower s) nvidiaPatterns = false →
      containsAny (goToLower s) amdPatterns = false →
      containsAny (goToLower s) intelPatterns = true →
      determineVendorFromOutput s = "intel") ∧
    (∀ s, containsAny (goToLower s) nvidiaPatterns = false →
      containsAny (goToLower s) amdPatterns = false →
      containsAny (goToLower s) intelPatterns = false →
      containsAny (goToLower s) applePatterns = true →
      determineVendorFromOutput s = "apple") ∧
    (∀ s, containsAny (goToLower s) nvidiaPatterns = false →
      containsAny (goToLower s) amdPatterns = false →
      containsAny (goToLower s) intelPatterns = false →
      containsAny (goToLower s) applePatterns = false →
      determineVendorFromOutput s = "unknown") ∧
    (∀ s, (∃ p ∈ amdPatterns, goContains (goToLower s) p = true) →
      (∃ q ∈ intelPatterns, goContains (goToLower s) q = true) →
      (∀ r ∈ nvidiaPatterns, goContains (goToLower s) r = false) →
      determineVendorFromOutput s = "amd") ∧
    determineVendorFromOutput "AMD Radeon with Intel Iris fallback" = "amd" := by
  refine ⟨?_, ?_, ?_, ?_, ?_, ?_, by decide⟩
  · intro s h1; simp [determineVendorFromOutput, h1]
  · intro s h1 h2; simp [determineVendorFromOutput, h1, h2]
  · intro s h1 h2 h3; simp [determineVendorFromOutput, h1, h2, h3]
  · intro s h1 h2 h3 h4; simp [determineVendorFromOutput, h1, h2, h3, h4]
  · intro s h1 h2 h3 h4; simp [determineVendorFromOutput, h1, h2, h3, h4]
  · intro s hamd _ hnv
    have h2 : containsAny (goToLower s) amdPatterns = true := by
      obtain ⟨p, hp, hc⟩ := hamd
      simp only [containsAny, List.any_eq_true]
      exact ⟨p, hp, hc⟩
    have h1 : containsAny (goToLower s) nvidiaPatterns = false := by
      simp only [containsAny, List.any_eq_false]
      intro r hr
      simp [hnv r hr]
    simp [determineVendorFromOutput, h1, h2]

/-- Witness for C6: the AMD-precedence clause applied at a concrete model
string containing AMD and Intel patterns but no NVIDIA pattern. -/
theorem determineVendorFromOutput_order_witness :
    determineVendorFromOutput "Radeon Iris hybrid" = "amd" :=
  determineVendorFromOutput_order.2.2.2.2.2.1 "Radeon Iris hybrid"
    ⟨"radeon", by decide, by decide⟩ ⟨"iris", by decide, by decide⟩ (by decide)

/-- C7: `formatMemory` renders a parsed byte count of at least 1 GiB as the
one-decimal GiB value with `" GB"`, of at least 1 MiB (below 1 GiB) as the
integer MiB value with `" MB"`, and returns the original input unchanged
for counts below 1 MiB or unparsable input; in particular
`"1073741824" ↦ "1.0 GB"`, `"2097152" ↦ "2 MB"`, `"512" ↦ "512"`. -/
theorem formatMemory_spec :
    formatMemory "1073741824" = "1.0 GB" ∧
    formatMemory "2097152" = "2 MB" ∧
    formatMemory "512" = "512" ∧
    (∀ s n, goParseInt64 (String.mk (firstDigitRun s.data)) = some n →
      1024 * 1024 * 1024 ≤ n →
      formatMemory s = fmtOneDecimal n (1024 * 1024 * 1024) ++ " GB") ∧
    (∀ s n, goParseInt64 (String.mk (firstDigitRun s.data)) = some n →
      1024 * 1024 ≤ n → n < 1024 * 1024 * 1024 →
      formatMemory s = fmtZeroDecimal n (1024 * 1024) ++ " MB") ∧
    (∀ s n, goParseInt64 (String.mk (firstDigitRun s.data)) = some n →
      n < 1024 * 1024 → formatMemory s = s) ∧
    (∀ s, goParseInt64 (String.mk (firstDigitRun s.data)) = none →
      formatMemory s = s) := by
  refine ⟨by decide, by decide, by decide, ?_, ?_, ?_, ?_⟩
  · intro s n hp hge
    have hne : firstDigitRun s.data ≠ [] := by
      intro h0
      rw [h0] at hp
      simp [goParseInt64, digitsToNat] at hp
      omega
    simp [formatMemory, hne, hp, hge]
  · intro s n hp hge hlt
    have hne : firstDigitRun s.data ≠ [] := by
      intro h0
      rw [h0] at hp
      simp [goParseInt64, digitsToNat] at hp
      omega
    simp [formatMemory, hne, hp, hge, Nat.not_le.mpr hlt]
  · intro s n hp hlt
    by_cases hne : firstDigitRun s.data = []
    · simp [formatMemory, hne]
    · have h1 : ¬ 1024 * 1024 * 1024 ≤ n := by omega
      have h2 : ¬ 1024 * 1024 ≤ n := by omega
      simp [formatMemory, hne, hp, h1, h2]
  · intro s hp
    by_cases hne : firstDigitRun s.data = []
    · simp [formatMemory, hne]
    · simp [formatMemory, hne, hp]

/-- Witness for C7: the below-1-MiB clause applied at `"123"`. -/
theorem formatMemory_spec_witness : formatMemory "123" = "123" :=
  formatMemory_spec.2.2.2.2.2.1 "123" 123 (by decide) (by decide)

/-- C2 counterexample: a Linux detection run in which only `lshw` answers,
directly reporting vendor `Matrox`, surfaces a record whose vendor is
`"matrox"` — not a member of the closed five-tag set. -/
theorem DetectGPUs_vendor_matrox_cex :
    DetectGPUs "linux" envLshwMatrox =
      ([{ Vendor := "matrox", Model := "MGA G200",
          RawOutput := "vendor: Matrox\nproduct: MGA G200" }], none) ∧
    "matrox" ∉ vendorTags := by
  constructor
  · rfl
  · decide

/-- C2 amended: the heuristic classifier always yields one of the five
tags, and so does every record of the Windows (key/value and JSON), lspci,
glxinfo and macOS parsers; a record of the Linux lshw parser instead
carries either one of the five tags or the lower-casing of the tool's
directly-reported vendor string (which may fall outside the set). -/
theorem vendor_closed_set_amended :
    (∀ s, determineVendorFromOutput s ∈ vendorTags) ∧
    (∀ out g, g ∈ parseWindowsGPUOutput out → g.Vendor ∈ vendorTags) ∧
    (∀ out g, g ∈ parseWindowsJSONOutput out → g.Vendor ∈ vendorTags) ∧
    (∀ out g, g ∈ parseLinuxLspciOutput out → g.Vendor ∈ vendorTags) ∧
    (∀ out g, g ∈ parseLinuxGLXOutput out → g.Vendor ∈ vendorTags) ∧
    (∀ out g, g ∈ parseMacGPUOutput out → g.Vendor ∈ vendorTags) ∧
    (∀ out g, g ∈ parseLinuxLshwOutput out →
      g.Vendor ∈ vendorTags ∨ ∃ v, g.Vendor = goToLower v) := by
  refine ⟨determineVendorFromOutput_mem, ?_, ?_, ?_, ?_, ?_, ?_⟩
  · intro out g h
    rw [(mem_parseWindowsGPUOutput h).1]
    exact determineVendorFromOutput_mem _
  · intro out g h
    rw [(mem_parseWindowsJSONOutput h).1]
    exact determineVendorFromOutput_mem _
  · intro out g h
    rw [(mem_parseLinuxLspciOutput h).1]
    exact determineVendorFromOutput_mem _
  · intro out g h
    rw [(mem_parseLinuxGLXOutput h).1]
    exact determineVendorFromOutput_mem _
  · intro out g h
    rw [(mem_parseMacGPUOutput h).1]
    exact determineVendorFromOutput_mem _
  · intro out g h
    exact (mem_parseLinuxLshwOutput h).1

/-- Witness for C2: the Windows-parser clause applied at a concrete output
and the record it parses to. -/
theorem vendor_closed_set_amended_witness :
    ({ Vendor := "nvidia", Model := "NVIDIA GeForce RTX 3080",
       RawOutput := "Name: NVIDIA GeForce RTX 3080" } : GPUInfo).Vendor ∈ vendorTags :=
  vendor_closed_set_amended.2.1 "Name: NVIDIA GeForce RTX 3080"
    { Vendor := "nvidia", Model := "NVIDIA GeForce RTX 3080",
      RawOutput := "Name: NVIDIA GeForce RTX 3080" } (by decide)

/-- C3 counterexample: the macOS parser accepts a candidate whose model is
the block-listed `"VMware SVGA II"` — it applies no generic-device
filter. -/
theorem parseMac_generic_vmware_cex :
    parseMacGPUOutput "Chipset Model: VMware SVGA II" =
      [{ Vendor := "unknown", Model := "VMware SVGA II",
         RawOutput := "Chipset Model: VMware SVGA II" }] ∧
    isGenericGPU "VMware SVGA II" = true := by
  constructor
  · rfl
  · decide

/-- C3 amended: every parser except the macOS one discards candidates whose
model case-insensitively contains a block-listed substring; in particular
`"Microsoft Basic Display Adapter"` never survives the Windows parsers and
`"VMware SVGA II"` never survives the Windows or Linux parsers (both models
are block-listed — but the macOS parser would surface them). -/
theorem generic_filter_amended :
    (∀ out g, g ∈ parseWindowsGPUOutput out → isGenericGPU g.Model = false) ∧
    (∀ out g, g ∈ parseWindowsJSONOutput out → isGenericGPU g.Model = false) ∧
    (∀ out g, g ∈ parseLinuxLspciOutput out → isGenericGPU g.Model = false) ∧
    (∀ out g, g ∈ parseLinuxLshwOutput out → isGenericGPU g.Model = false) ∧
    (∀ out g, g ∈ parseLinuxGLXOutput out → isGenericGPU g.Model = false) ∧
    isGenericGPU "Microsoft Basic Display Adapter" = true ∧
    parseWindowsGPUOutput "Name: Microsoft Basic Display Adapter" = [] ∧
    isGenericGPU "VMware SVGA II" = true := by
  refine ⟨?_, ?_, ?_, ?_, ?_, by decide, by rfl, by decide⟩
  · intro out g h; exact (mem_parseWindowsGPUOutput h).2.2.1
  · intro out g h; exact (mem_parseWindowsJSONOutput h).2.2.1
  · intro out g h; exact (mem_parseLinuxLspciOutput h).2.1
  · intro out g h; exact (mem_parseLinuxLshwOutput h).2.2.1
  · intro out g h; exact (mem_parseLinuxGLXOutput h).2.1

/-- Witness for C3: the glxinfo clause applied at a concrete output and the
record it parses to. -/
theorem generic_filter_amended_witness :
    isGenericGPU
      ({ Vendor := "amd", Model := "AMD Radeon RX 580",
         RawOutput := "OpenGL renderer string: AMD Radeon RX 580" } : GPUInfo).Model = false :=
  generic_filter_amended.2.2.2.2.1 "OpenGL renderer string: AMD Radeon RX 580"
    { Vendor := "amd", Model := "AMD Radeon RX 580",
      RawOutput := "OpenGL renderer string: AMD Radeon RX 580" } (by decide)

/-! ## Orchestration helper lemmas -/

/-- A failing method (invocation error or zero parsed records) is skipped by
the Windows method loop. -/
lemma windowsFirstSuccess_skip {r : Except String String} (hf : winMethodFails r)
    (rest : List (Except String (List GPUInfo))) :
    windowsFirstSuccess (r.map parseWindowsGPUOutput :: rest) = windowsFirstSuccess rest := by
  cases r with
  | error e => rfl
  | ok o =>
    have hpo : parseWindowsGPUOutput o = [] := hf
    simp [windowsFirstSuccess, Except.map, hpo]

/-- A successful non-empty method stops the Windows method loop. -/
lemma windowsFirstSuccess_hit {o : String} (h : parseWindowsGPUOutput o ≠ [])
    (rest : List (Except String (List GPUInfo))) :
    windowsFirstSuccess ((Except.ok o : Except String String).map parseWindowsGPUOutput :: rest) =
      some (parseWindowsGPUOutput o) := by
  simp [windowsFirstSuccess, Except.map, List.length_pos.mpr h]

/-- The Windows method loop only returns lists it checked to be non-empty,
and only lists present among the method results. -/
lemma windowsFirstSuccess_some {rs : List (Except String (List GPUInfo))}
    {l : List GPUInfo} (h : windowsFirstSuccess rs = some l) :
    l ≠ [] ∧ Except.ok l ∈ rs := by
  induction rs with
  | nil => cases h
  | cons r rest ih =>
    cases r with
    | error e =>
      have h2 : windowsFirstSuccess rest = some l := h
      exact ⟨(ih h2).1, List.mem_cons_of_mem _ (ih h2).2⟩
    | ok gpus =>
      by_cases hl : gpus.length > 0
      · have h2 : some gpus = some l := by simpa [windowsFirstSuccess, hl] using h
        obtain rfl := Option.some.inj h2
        exact ⟨by simpa using List.length_pos.mp hl, List.mem_cons_self _ _⟩
      · have h2 : windowsFirstSuccess rest = some l := by
          simpa [windowsFirstSuccess, hl] using h
        exact ⟨(ih h2).1, List.mem_cons_of_mem _ (ih h2).2⟩

/-- If the Windows method loop reports no success, every method failed. -/
lemma windowsFirstSuccess_none {rs : List (Except String (List GPUInfo))}
    (h : windowsFirstSuccess rs = none) :
    ∀ r ∈ rs, ∀ l, r = Except.ok l → l = [] := by
  induction rs with
  | nil => intro r hr; cases hr
  | cons r0 rest ih =>
    intro r hr l hl
    rcases List.mem_cons.mp hr with rfl | hmem
    · subst hl
      by_cases hlen : l.length > 0
      · simp [windowsFirstSuccess, hlen] at h
      · simpa using List.length_eq_zero.mp (by omega)
    · rcases r0 with e | gpus
      · exact ih h r hmem l hl
      · by_cases hlen : gpus.length > 0
        · simp [windowsFirstSuccess, hlen] at h
        · have h2 : windowsFirstSuccess rest = none := by
            simpa [windowsFirstSuccess, hlen] using h
          exact ih h2 r hmem l hl

/-- The Windows sentinel cannot come out of the parser: parsed records
carry no error text. -/
lemma windowsSentinel_not_mem (o : String) :
    windowsSentinel ∉ parseWindowsGPUOutput o := by
  intro h
  have he := (mem_parseWindowsGPUOutput h).2.2.2
  simp [windowsSentinel] at he

/-- The Windows detector never returns a structural error. -/
lemma detectWindowsGPUs_snd (env : ProbeEnv) : (detectWindowsGPUs env).2 = none := by
  unfold detectWindowsGPUs
  split <;> rfl

/-- The Windows detector never returns an empty record list. -/
lemma detectWindowsGPUs_fst_ne_nil (env : ProbeEnv) : (detectWindowsGPUs env).1 ≠ [] := by
  unfold detectWindowsGPUs
  split
  next l hl => simpa using (windowsFirstSuccess_some hl).1
  next => simp

/-- When all three Windows strategies fail, the detector returns the
sentinel. -/
lemma detectWindowsGPUs_all_fail {env : ProbeEnv} (h1 : winMethodFails env.winCIM)
    (h2 : winMethodFails env.winWMI) (h3 : winMethodFails env.winWMIC) :
    detectWindowsGPUs env = ([windowsSentinel], none) := by
  unfold detectWindowsGPUs detectWindowsGPUsPowerShellCIM detectWindowsGPUsPowerShellWMI
    detectWindowsGPUsWMIC
  rw [windowsFirstSuccess_skip h1, windowsFirstSuccess_skip h2, windowsFirstSuccess_skip h3]
  rfl

/-- C5: the Windows probe strategies are tried in the order CIM, WMI, WMIC;
the first that runs without error and parses to at least one record is
returned (later strategies cannot influence the result), and the sentinel
appears exactly when all three fail or parse to zero records. -/
theorem detectWindowsGPUs_priority :
    (∀ env o, env.winCIM = Except.ok o → parseWindowsGPUOutput o ≠ [] →
      detectWindowsGPUs env = (parseWindowsGPUOutput o, none)) ∧
    (∀ env o, winMethodFails env.winCIM → env.winWMI = Except.ok o →
      parseWindowsGPUOutput o ≠ [] →
      detectWindowsGPUs env = (parseWindowsGPUOutput o, none)) ∧
    (∀ env o, winMethodFails env.winCIM → winMethodFails env.winWMI →
      env.winWMIC = Except.ok o → parseWindowsGPUOutput o ≠ [] →
      detectWindowsGPUs env = (parseWindowsGPUOutput o, none)) ∧
    (∀ env, detectWindowsGPUs env = ([windowsSentinel], none) ↔
      winMethodFails env.winCIM ∧ winMethodFails env.winWMI ∧ winMethodFails env.winWMIC) := by
  refine ⟨?_, ?_, ?_, ?_⟩
  · intro env o hc hne
    unfold detectWindowsGPUs detectWindowsGPUsPowerShellCIM
    rw [hc, windowsFirstSuccess_hit hne]
  · intro env o h1 hc hne
    unfold detectWindowsGPUs detectWindowsGPUsPowerShellCIM detectWindowsGPUsPowerShellWMI
    rw [hc, windowsFirstSuccess_skip h1, windowsFirstSuccess_hit hne]
  · intro env o h1 h2 hc hne
    unfold detectWindowsGPUs detectWindowsGPUsPowerShellCIM detectWindowsGPUsPowerShellWMI
      detectWindowsGPUsWMIC
    rw [hc, windowsFirstSuccess_skip h1, windowsFirstSuccess_skip h2,
      windowsFirstSuccess_hit hne]
  · intro env
    constructor
    · intro h
      unfold detectWindowsGPUs at h
      split at h
      next l hl =>
        obtain ⟨hne, hmem⟩ := windowsFirstSuccess_some hl
        have hls : l = [windowsSentinel] := by
          have := congrArg Prod.fst h
          simpa using this
        subst hls
        have hsent : ∀ r : Except String String,
            r.map parseWindowsGPUOutput = Except.ok [windowsSentinel] → False := by
          intro r hr
          cases r with
          | error e => cases hr
          | ok o =>
            have : parseWindowsGPUOutput o = [windowsSentinel] := by
              simpa [Except.map] using hr
            exact windowsSentinel_not_mem o (this ▸ List.mem_cons_self _ _)
        simp only [List.mem_cons, List.mem_singleton] at hmem
        rcases hmem with hm | hm | hm | hm
        · exact absurd hm.symm (fun hx => hsent _ hx)
        · exact absurd hm.symm (fun hx => hsent _ hx)
        · exact absurd hm.symm (fun hx => hsent _ hx)
        · cases hm
      next hnone =>
        have hall := windowsFirstSuccess_none hnone
        refine ⟨?_, ?_, ?_⟩
        · cases hcim : env.winCIM with
          | error e => trivial
          | ok o =>
            exact hall (detectWindowsGPUsPowerShellCIM env) (by simp)
              (parseWindowsGPUOutput o)
              (by simp [detectWindowsGPUsPowerShellCIM, hcim, Except.map])
        · cases hwmi : env.winWMI with
          | error e => trivial
          | ok o =>
            exact hall (detectWindowsGPUsPowerShellWMI env) (by simp)
              (parseWindowsGPUOutput o)
              (by simp [detectWindowsGPUsPowerShellWMI, hwmi, Except.map])
        · cases hwmic : env.winWMIC with
          | error e => trivial
          | ok o =>
            exact hall (detectWindowsGPUsWMIC env) (by simp)
              (parseWindowsGPUOutput o)
              (by simp [detectWindowsGPUsWMIC, hwmic, Except.map])
    · intro ⟨h1, h2, h3⟩
      exact detectWindowsGPUs_all_fail h1 h2 h3

/-- Witness for C5: with the CIM strategy failing and the WMI strategy
producing one record, the WMI result is returned. -/
theorem detectWindowsGPUs_priority_witness :
    detectWindowsGPUs envWMIWins =
      (parseWindowsGPUOutput "Name: NVIDIA GeForce RTX 3080", none) :=
  detectWindowsGPUs_priority.2.1 envWMIWins "Name: NVIDIA GeForce RTX 3080"
    (by constructor) rfl (by decide)

/-- The Linux detector's result is the merged list when it is non-empty and
the sentinel otherwise (the merged list abstracted). -/
lemma detectLinuxGPUs_cases (env : ProbeEnv) :
    ∃ gpus4 : List GPUInfo,
      detectLinuxGPUs env =
        if gpus4.length = 0 then ([linuxSentinel], none) else (gpus4, none) :=
  ⟨_, rfl⟩

/-- The Linux detector never returns a structural error. -/
lemma detectLinuxGPUs_snd (env : ProbeEnv) : (detectLinuxGPUs env).2 = none := by
  obtain ⟨g4, hg⟩ := detectLinuxGPUs_cases env
  rw [hg]
  split <;> rfl

/-- The Linux detector never returns an empty record list. -/
lemma detectLinuxGPUs_fst_ne_nil (env : ProbeEnv) : (detectLinuxGPUs env).1 ≠ [] := by
  obtain ⟨g4, hg⟩ := detectLinuxGPUs_cases env
  rw [hg]
  split
  next => simp
  next hlen =>
    dsimp only
    intro hnil
    exact hlen (by simp [hnil])

/-- When all four Linux probes contribute nothing, the Linux detector
returns the sentinel. -/
lemma detectLinuxGPUs_all_empty {env : ProbeEnv} (h : linuxAllProbesEmpty env) :
    detectLinuxGPUs env = ([linuxSentinel], none) := by
  obtain ⟨h1, h2, h3, h4⟩ := h
  unfold detectLinuxGPUs
  simp [h1, h2, h3, h4]

/-- The platform dispatch of `DetectGPUs`, branch by branch. -/
lemma DetectGPUs_windows (env : ProbeEnv) :
    DetectGPUs "windows" env = detectWindowsGPUs env := rfl

lemma DetectGPUs_linux (env : ProbeEnv) :
    DetectGPUs "linux" env = detectLinuxGPUs env := rfl

lemma DetectGPUs_darwin (env : ProbeEnv) :
    DetectGPUs "darwin" env = detectMacGPUs env := rfl

lemma DetectGPUs_other (goos : String) (env : ProbeEnv) (h1 : goos ≠ "windows")
    (h2 : goos ≠ "linux") (h3 : goos ≠ "darwin") :
    DetectGPUs goos env = ([unsupportedSentinel goos], none) := by
  unfold DetectGPUs
  rw [if_neg h1, if_neg h2, if_neg h3]

/-- A string with a non-empty left half is non-empty. -/
lemma append_ne_empty {s : String} (t : String) (hs : s.length ≠ 0) : s ++ t ≠ "" := by
  intro h
  have hl := congrArg String.length h
  rw [String.length_append] at hl
  simp at hl
  omega

/-- C1 counterexample: on macOS, when `system_profiler` runs successfully
but its output parses to zero records, `DetectGPUs` returns the empty
sequence — not a sentinel record. -/
theorem DetectGPUs_darwin_empty_cex :
    DetectGPUs "darwin" envMacEmptyOutput = ([], none) := rfl

/-- C1 amended: `DetectGPUs` returns a non-empty sequence on Windows, on
Linux, and on every unsupported platform; on macOS it is non-empty whenever
the probe invocation fails, but returns the empty sequence exactly when
`system_profiler` succeeds and its output parses to zero records. -/
theorem DetectGPUs_nonempty_amended :
    (∀ env, (DetectGPUs "windows" env).1 ≠ []) ∧
    (∀ env, (DetectGPUs "linux" env).1 ≠ []) ∧
    (∀ goos env, goos ≠ "windows" → goos ≠ "linux" → goos ≠ "darwin" →
      (DetectGPUs goos env).1 = [unsupportedSentinel goos]) ∧
    (∀ env e, env.systemProfiler = Except.error e → (DetectGPUs "darwin" env).1 ≠ []) ∧
    (∀ env, (DetectGPUs "darwin" env).1 = [] ↔
      ∃ o, env.systemProfiler = Except.ok o ∧ parseMacGPUOutput o = []) := by
  refine ⟨?_, ?_, ?_, ?_, ?_⟩
  · intro env
    rw [DetectGPUs_windows]
    exact detectWindowsGPUs_fst_ne_nil env
  · intro env
    rw [DetectGPUs_linux]
    exact detectLinuxGPUs_fst_ne_nil env
  · intro goos env h1 h2 h3
    rw [DetectGPUs_other goos env h1 h2 h3]
  · intro env e he
    rw [DetectGPUs_darwin]
    unfold detectMacGPUs
    rw [he]
    simp
  · intro env
    rw [DetectGPUs_darwin]
    unfold detectMacGPUs
    cases hp : env.systemProfiler with
    | ok o =>
      simp only []
      constructor
      · intro h; exact ⟨o, rfl, h⟩
      · rintro ⟨o2, ho2, hpo⟩
        obtain rfl := Except.ok.inj ho2
        exact hpo
    | error e =>
      simp

/-- Witness for C1: the unsupported-platform clause at a concrete platform
string and environment. -/
theorem DetectGPUs_nonempty_amended_witness :
    (DetectGPUs "plan9" envAllFail).1 = [unsupportedSentinel "plan9"] :=
  DetectGPUs_nonempty_amended.2.2.1 "plan9" envAllFail (by decide) (by decide) (by decide)

/-- C9: `DetectGPUs` always returns a nil error, and total detection
failure — all Windows strategies failing, all Linux probes contributing
nothing, the macOS probe failing, or an unsupported platform — is
represented solely as a single sentinel record with vendor and model
`"unknown"` and a non-empty error string. -/
theorem DetectGPUs_nil_error_sentinels :
    (∀ goos env, (DetectGPUs goos env).2 = none) ∧
    (∀ env, winMethodFails env.winCIM → winMethodFails env.winWMI →
      winMethodFails env.winWMIC → DetectGPUs "windows" env = ([windowsSentinel], none)) ∧
    (∀ env, linuxAllProbesEmpty env → DetectGPUs "linux" env = ([linuxSentinel], none)) ∧
    (∀ env e, env.systemProfiler = Except.error e →
      DetectGPUs "darwin" env = ([macSentinel e], none)) ∧
    (∀ goos env, goos ≠ "windows" → goos ≠ "linux" → goos ≠ "darwin" →
      DetectGPUs goos env = ([unsupportedSentinel goos], none)) ∧
    (windowsSentinel.Vendor = "unknown" ∧ windowsSentinel.Model = "unknown" ∧
      windowsSentinel.Error ≠ "") ∧
    (linuxSentinel.Vendor = "unknown" ∧ linuxSentinel.Model = "unknown" ∧
      linuxSentinel.Error ≠ "") ∧
    (∀ e, (macSentinel e).Vendor = "unknown" ∧ (macSentinel e).Model = "unknown" ∧
      (macSentinel e).Error ≠ "") ∧
    (∀ goos, (unsupportedSentinel goos).Vendor = "unknown" ∧
      (unsupportedSentinel goos).Model = "unknown" ∧
      (unsupportedSentinel goos).Error ≠ "") := by
  refine ⟨?_, ?_, ?_, ?_, ?_, ⟨rfl, rfl, by decide⟩, ⟨rfl, rfl, by decide⟩, ?_, ?_⟩
  · intro goos env
    unfold DetectGPUs
    split_ifs
    · exact detectWindowsGPUs_snd env
    · exact detectLinuxGPUs_snd env
    · unfold detectMacGPUs
      cases env.systemProfiler <;> rfl
    · rfl
  · intro env h1 h2 h3
    rw [DetectGPUs_windows]
    exact detectWindowsGPUs_all_fail h1 h2 h3
  · intro env h
    rw [DetectGPUs_linux]
    exact detectLinuxGPUs_all_empty h
  · intro env e he
    rw [DetectGPUs_darwin]
    unfold detectMacGPUs
    rw [he]
  · exact DetectGPUs_other
  · intro e
    exact ⟨rfl, rfl, append_ne_empty e (by decide)⟩
  · intro goos
    exact ⟨rfl, rfl, append_ne_empty goos (by decide)⟩

/-- Witness for C9: the macOS failure clause at a concrete environment. -/
theorem DetectGPUs_nil_error_sentinels_witness :
    DetectGPUs "darwin" envAllFail = ([macSentinel "exec failed"], none) :=
  DetectGPUs_nil_error_sentinels.2.2.2.1 envAllFail "exec failed" rfl

/-- C10: `DetectGPUVendor` returns exactly the first record of
`DetectGPUs` when the error is nil and the sequence non-empty, and
otherwise a sentinel with vendor/model `"unknown"` and a non-empty error
string. -/
theorem DetectGPUVendor_first_gpu :
    (∀ goos env g rest, (DetectGPUs goos env).1 = g :: rest →
      (DetectGPUs goos env).2 = none → DetectGPUVendor goos env = g) ∧
    (∀ goos env, ((DetectGPUs goos env).2 ≠ none ∨ (DetectGPUs goos env).1 = []) →
      DetectGPUVendor goos env =
        { Vendor := "unknown", Model := "unknown",
          Error := "Detection failed: " ++ errFmt (DetectGPUs goos env).2 } ∧
      ("Detection failed: " ++ errFmt (DetectGPUs goos env).2) ≠ "") := by
  constructor
  · intro goos env g rest h1 h2
    have hcond : ¬((DetectGPUs goos env).2 ≠ none ∨ (DetectGPUs goos env).1 = []) := by
      simp [h1, h2]
    unfold DetectGPUVendor
    dsimp only
    rw [dif_neg hcond]
    have haux : ∀ (l : List GPUInfo), l = g :: rest → ∀ hp : l ≠ [], l.head hp = g := by
      intro l hl hp
      subst hl
      rfl
    exact haux _ h1 _
  · intro goos env h
    unfold DetectGPUVendor
    dsimp only
    rw [dif_pos h]
    exact ⟨rfl, append_ne_empty _ (by decide)⟩

/-- Witness for C10: the first-record clause at a concrete unsupported
platform, where detection returns the single unsupported sentinel. -/
theorem DetectGPUVendor_first_gpu_witness :
    DetectGPUVendor "plan9" envAllFail = unsupportedSentinel "plan9" :=
  DetectGPUVendor_first_gpu.1 "plan9" envAllFail (unsupportedSentinel "plan9") [] rfl rfl

end VideoProcessing
